import Mathlib

/-!
Shallow embedding of the Telemeister conversational state-machine core.

The definitions below are translated from the repository source:

* `src/src/core/builder.ts` — `StateBuilder` / `BotBuilder` handler registry
  (a JS `Map` from state identifier to a `{ onEnter?, onResponse? }` pair).
* `src/src/core/bot/polling.ts` — the injected-database grammy polling
  runtime: `createHandlerContext`, `transitionToState`, and the
  `message:text` cycle.
* `src/unnamed/part_000` (telegram-client runtime) — `handleUserMessage`
  with its explicit `updateUserState` persistence calls, and the
  `context.transition` facade that sends a TRANSITION event to an XState
  actor built from `compactMachine` (`src/src/core/index.ts`).
* `src/src/core/bot/session.ts` — `getOrCreateSession` over the
  `DatabaseAdapter` interface of `src/unnamed/part_003`.

Conventions:

* `stateData` objects are modelled as insertion-ordered association lists
  (`Data`), matching JS object key order; `JSON.stringify` equality of two
  such objects is plain list equality.
* Handler callbacks are modelled as pure functions from the context state
  they observe (`ctx.currentState`) and the working data store to an
  outcome that is either a thrown exception or an optional next state
  together with the mutated store.
* The engine records, for each `executeOnEnter` call it makes, the state
  being entered, the `currentState` field of the context object passed to
  it, and the working store at that moment.  This trace is pure
  instrumentation: it lets theorems speak about which handlers were
  invoked, in which order, and with which context view.
* The recursion of `transitionToState` in `polling.ts` is unbounded; the
  embedding indexes it by a call-depth budget `fuel`, with a dedicated
  `fuelOut` status marking runs that are still unfinished at that depth.
* JS truthiness of a returned state (`if (nextState)`,
  `enterNextState && enterNextState !== toState`) is modelled exactly:
  `undefined`/`void` and the empty string are falsy.
-/

namespace Telemeister

/-- Working `stateData` store: insertion-ordered key/value list, modelling a plain
JS object with string values.  `JSON.stringify` comparison of two stores
is list equality. -/
abbrev Data := List (String × String)

/-- Assignment `localStateData[key] = value`: replace in place, preserving key order,
or append a new key at the end (JS object assignment semantics). -/
def Data.setKey : Data → String → String → Data
  | [], k, v => [(k, v)]
  | (k', v') :: t, k, v =>
    if k' = k then (k, v) :: t else (k', v') :: Data.setKey t k v

/-- Read of `localStateData[key]`. -/
def Data.getKey : Data → String → Option String
  | [], _ => none
  | (k', v') :: t, k => if k' = k then some v' else Data.getKey t k

/-- Outcome of one handler callback: either it throws, or it returns an
optional next state (`undefined` ↦ `none`) and the working store after its
`setData` mutations. -/
inductive HResult where
  | ok (next : Option String) (d : Data)
  | thrown
deriving Repr, DecidableEq

/-- An `EnterHandler`: receives the context's `currentState` field and the
working store. -/
abbrev EnterH := String → Data → HResult

/-- A `ResponseHandler`: additionally receives the inbound message text. -/
abbrev RespH := String → String → Data → HResult

/-- The `StateHandlers` record of `src/src/core/types.ts`: the two optional slots of
one state. -/
structure StateHandlers where
  onEnter : Option EnterH := none
  onResponse : Option RespH := none

/-- The builder's `Map<TState, StateHandlers>`, as an insertion-ordered
association list. -/
abbrev Handlers := List (String × StateHandlers)

/-- Lookup, i.e. `Map.get`. -/
def Handlers.get : Handlers → String → Option StateHandlers
  | [], _ => none
  | (k, v) :: t, s => if k = s then some v else Handlers.get t s

/-- Update, i.e. `Map.set`: replace the entry in place, or append. -/
def Handlers.setEntry : Handlers → String → StateHandlers → Handlers
  | [], s, e => [(s, e)]
  | (k, v) :: t, s, e =>
    if k = s then (s, e) :: t else (k, v) :: Handlers.setEntry t s e

/-- The `BotBuilder` of `src/src/core/builder.ts` (its `handlers` map). -/
structure BotBuilder where
  handlers : Handlers := []

/-- Registration `BotBuilder.onEnter(state, handler)` (also the body of
`StateBuilder.onEnter`): fetch the existing pair (or `{}`), set only the
`onEnter` slot, store it back. -/
def BotBuilder.onEnterReg (b : BotBuilder) (s : String) (h : EnterH) : BotBuilder :=
  let existing := (b.handlers.get s).getD {}
  ⟨b.handlers.setEntry s { existing with onEnter := some h }⟩

/-- Registration `BotBuilder.onResponse(state, handler)` (also the body of
`StateBuilder.onResponse`). -/
def BotBuilder.onResponseReg (b : BotBuilder) (s : String) (h : RespH) : BotBuilder :=
  let existing := (b.handlers.get s).getD {}
  ⟨b.handlers.setEntry s { existing with onResponse := some h }⟩

/-- Execution `BotBuilder.executeOnEnter(state, context)`: look up the enter handler
for `state`; no-op returning `undefined` when absent, otherwise invoke it.
`ctxCur` is the `currentState` field of the context object passed in. -/
def BotBuilder.executeOnEnter (b : BotBuilder) (s ctxCur : String) (d : Data) : HResult :=
  match (b.handlers.get s).bind (fun hs => hs.onEnter) with
  | none => .ok none d
  | some h => h ctxCur d

/-- Execution `BotBuilder.executeOnResponse(state, context, response)`. -/
def BotBuilder.executeOnResponse (b : BotBuilder) (s ctxCur text : String) (d : Data) : HResult :=
  match (b.handlers.get s).bind (fun hs => hs.onResponse) with
  | none => .ok none d
  | some h => h ctxCur text d

/-- JS truthiness of a returned state: `undefined` and `""` are falsy. -/
def truthy : Option String → Bool
  | none => false
  | some s => !(s = "")

/-- The `SessionData` of the grammy runtimes: the in-memory session record. -/
structure SessionData where
  currentState : String
  stateData : Data
deriving Repr, DecidableEq

/-- The handler-facing context object of
`createHandlerContext` (`src/src/core/bot/polling.ts`): a `currentState`
snapshot plus the local working copy `localStateData`. -/
structure Ctx where
  currentState : String
  localStateData : Data
deriving Repr, DecidableEq

/-- Construction `createHandlerContext(ctx, session, database)`: snapshot the session's
current state and spread-copy its `stateData` into the local store. -/
def createHandlerContext (s : SessionData) : Ctx :=
  ⟨s.currentState, s.stateData⟩

/-- One `executeOnEnter` call made by an engine: the state being entered,
the `currentState` field of the context object it was given, and the
working store at that moment. -/
structure EnterCall where
  state : String
  ctxCurrentState : String
  dataIn : Data
deriving Repr, DecidableEq

/-- How a run ended.  `fuelOut` is the embedding's marker for a run whose
recursion depth exceeded the fuel budget (the source recursion is
unbounded). -/
inductive RunStatus where
  | ok
  | errored
  | fuelOut
deriving Repr, DecidableEq

/-- Result of `transitionToState`: final status, the in-memory session
record as it stands when the call returns or the exception escapes, and
the trace of `executeOnEnter` calls made. -/
structure TransOut where
  status : RunStatus
  sess : SessionData
  trace : List EnterCall
deriving Repr, DecidableEq

/-- Function `transitionToState` of `src/src/core/bot/polling.ts` (lines 163-187),
identical in `src/src/bot/session.ts` (webhook, lines 336-359):

1. `session.currentState = toState` (in-memory mutation, before anything
   else);
2. `executeOnEnter(toState, handlerContext)` — on a throw the exception
   escapes with the session already mutated;
3. `session.stateData = handlerContext.getData('__all') || session.stateData`;
4. if the returned state is truthy and differs from `toState`, build a
   fresh context from the session, override its `currentState` with the
   chained state, and recurse. -/
def transitionToState (b : BotBuilder) : Nat → SessionData → String → Ctx → TransOut
  | 0, sess, _, _ => ⟨.fuelOut, sess, []⟩
  | fuel + 1, sess, toState, ctx =>
    let sess1 : SessionData := { sess with currentState := toState }
    let call : EnterCall := ⟨toState, ctx.currentState, ctx.localStateData⟩
    match b.executeOnEnter toState ctx.currentState ctx.localStateData with
    | .thrown => ⟨.errored, sess1, [call]⟩
    | .ok enterNext d' =>
      let sess2 : SessionData := { sess1 with stateData := d' }
      match enterNext with
      | some s2 =>
        if s2 ≠ "" ∧ s2 ≠ toState then
          let nextCtx : Ctx := ⟨s2, sess2.stateData⟩
          let out := transitionToState b fuel sess2 s2 nextCtx
          ⟨out.status, out.sess, call :: out.trace⟩
        else ⟨.ok, sess2, [call]⟩
      | none => ⟨.ok, sess2, [call]⟩

/-- The `message:text` cycle of the injected-database polling runtime
(`src/src/core/bot/polling.ts`, lines 73-95): build one handler context,
run `executeOnResponse`, and on a truthy returned state call
`transitionToState` with that same context ("call onEnter even for same
state"); otherwise save the local store back into the session. -/
def handleTextMessage (b : BotBuilder) (fuel : Nat) (sess : SessionData)
    (text : String) : TransOut :=
  let ctx := createHandlerContext sess
  match b.executeOnResponse sess.currentState ctx.currentState text ctx.localStateData with
  | .thrown => ⟨.errored, sess, []⟩
  | .ok nextState d' =>
    match nextState with
    | some s1 =>
      if s1 ≠ "" then
        transitionToState b fuel sess s1 { ctx with localStateData := d' }
      else ⟨.ok, { sess with stateData := d' }, []⟩
    | none => ⟨.ok, { sess with stateData := d' }, []⟩

/-- Result of `handleUserMessage` of the telegram-client runtime
(`src/unnamed/part_000`): final status, the context's `currentState` field
as last mutated, the tracked `stateData` object, the list of
`updateUserState(telegramId, state, stateData)` durable writes in order,
and the `executeOnEnter` trace. -/
structure MsgOut where
  status : RunStatus
  ctxCurrent : String
  stateData : Data
  writes : List (String × Data)
  enterTrace : List EnterCall
deriving Repr, DecidableEq

/-- Function `handleUserMessage` of `src/unnamed/part_000` (lines 81-169), from the
point where the user record is loaded: copy the persisted store, run
`executeOnResponse`; when it returns a truthy state different from the
current one, durably persist that transition (`updateUserState`) *before*
running the new state's `onEnter`; follow at most one further chained
transition the same way, discarding the second `onEnter`'s return;
otherwise persist only when `JSON.stringify` comparison shows the store
changed. -/
def handleUserMessage (b : BotBuilder) (curState : String) (userStateData : Data)
    (text : String) : MsgOut :=
  let stateData := userStateData
  match b.executeOnResponse curState curState text stateData with
  | .thrown => ⟨.errored, curState, stateData, [], []⟩
  | .ok respNext d1 =>
    match respNext with
    | some s1 =>
      if s1 ≠ "" ∧ s1 ≠ curState then
        let writes1 := [(s1, d1)]
        let call1 : EnterCall := ⟨s1, s1, d1⟩
        match b.executeOnEnter s1 s1 d1 with
        | .thrown => ⟨.errored, s1, d1, writes1, [call1]⟩
        | .ok enterNext d2 =>
          match enterNext with
          | some s2 =>
            if s2 ≠ "" ∧ s2 ≠ s1 then
              let writes2 := writes1 ++ [(s2, d2)]
              let call2 : EnterCall := ⟨s2, s2, d2⟩
              match b.executeOnEnter s2 s2 d2 with
              | .thrown => ⟨.errored, s2, d2, writes2, [call1, call2]⟩
              | .ok _ d3 => ⟨.ok, s2, d3, writes2, [call1, call2]⟩
            else ⟨.ok, s1, d2, writes1, [call1]⟩
          | none => ⟨.ok, s1, d2, writes1, [call1]⟩
      else
        if d1 ≠ userStateData then ⟨.ok, curState, d1, [(curState, d1)], []⟩
        else ⟨.ok, curState, d1, [], []⟩
    | none =>
      if d1 ≠ userStateData then ⟨.ok, curState, d1, [(curState, d1)], []⟩
      else ⟨.ok, curState, d1, [], []⟩

/-- The XState actor context of `compactMachine`
(`src/src/core/index.ts`): the only piece a TRANSITION event touches is
`currentState` (the `updateState` action); `persistState` only logs. -/
structure ActorCtx where
  currentState : String
deriving Repr, DecidableEq

/-- Result of the `context.transition` facade of the telegram-client
runtime. -/
structure P0TransOut where
  actor : ActorCtx
  ctxCurrent : String
  stateData : Data
  writes : List (String × Data)
  enterTrace : List EnterCall
deriving Repr, DecidableEq

/-- The facade `transition: async (toState) => { actor.send({ type: "TRANSITION",
toState }); }` (`src/unnamed/part_000`, lines 131-134): the machine's
`updateState` action assigns the actor context's `currentState`; nothing
else happens — no builder handler is executed, the tracked `stateData`
and the handler context's `currentState` are untouched, and no
`updateUserState` write is made. -/
def part000Transition (act : ActorCtx) (ctxCurrent : String) (stateData : Data)
    (toState : String) : P0TransOut :=
  ⟨{ act with currentState := toState }, ctxCurrent, stateData, [], []⟩

/-- The `transition` facade of the injected-database polling runtime
(`src/src/core/bot/polling.ts`, lines 148-157): call `transitionToState`
with a *freshly created* context (`createHandlerContext(ctx, session)`),
whose `currentState` snapshot is the session's pre-call state and whose
local store is seeded from the session's `stateData`. -/
def pollingTransition (b : BotBuilder) (fuel : Nat) (sess : SessionData)
    (toState : String) : TransOut :=
  transitionToState b fuel sess toState (createHandlerContext sess)

/-- The `UserData` record of the `DatabaseAdapter` interface (`src/unnamed/part_003`):
the durable user record; `info` holds the serialized `stateData` blob
(`none` models a record without an info row). -/
structure UserData where
  id : Nat
  telegramId : String
  chatId : String
  currentState : String
  info : Option Data
deriving Repr, DecidableEq

/-- Reference storage implementing the `DatabaseAdapter` contract of
`src/unnamed/part_003`: records keyed by `telegramId`. -/
abbrev Db := List (String × UserData)

/-- Lookup `database.getUserByTelegramId`. -/
def Db.getUserByTelegramId : Db → String → Option UserData
  | [], _ => none
  | (k, u) :: t, tid => if k = tid then some u else Db.getUserByTelegramId t tid

/-- Upsert `database.createOrUpdateUser`: upsert by `telegramId`; a new record
gets a fresh `id` and the given state and serialized store. -/
def Db.createOrUpdateUser (db : Db) (tid chatId state : String) (d : Data) :
    UserData × Db :=
  match db.getUserByTelegramId tid with
  | some u =>
    let u' : UserData := { u with chatId := chatId, currentState := state, info := some d }
    (u', db.map (fun p => if p.1 = tid then (tid, u') else p))
  | none =>
    let u : UserData := ⟨db.length, tid, chatId, state, some d⟩
    (u, db ++ [(tid, u)])

/-- Update `database.updateUserState`: update an existing record's state and
serialized store. -/
def Db.updateUserState (db : Db) (tid state : String) (d : Data) : Db :=
  db.map (fun p =>
    if p.1 = tid then (tid, { p.2 with currentState := state, info := some d }) else p)

/-- The session record returned by `getOrCreateSession`
(`src/src/core/bot/session.ts`). -/
structure FullSession where
  currentState : String
  stateData : Data
  userId : Nat
  chatId : String
deriving Repr, DecidableEq

/-- The `SessionResult` of `src/unnamed/part_003`. -/
structure SessionResult where
  session : FullSession
  isNew : Bool
deriving Repr, DecidableEq

/-- Function `getOrCreateSession(telegramId, chatId, database)` of
`src/src/core/bot/session.ts` (lines 67-107): return the existing record
(parsing its `info.stateData`, `{}` when absent) with `isNew = false`, or
create a fresh record with state `"idle"` and empty store and return it
with `isNew = true`. -/
def getOrCreateSession (tid chatId : String) (db : Db) : SessionResult × Db :=
  match db.getUserByTelegramId tid with
  | some existing =>
    (⟨⟨existing.currentState, existing.info.getD [], existing.id, existing.chatId⟩,
      false⟩, db)
  | none =>
    let (newUser, db') := db.createOrUpdateUser tid chatId "idle" []
    (⟨⟨"idle", [], newUser.id, newUser.chatId⟩, true⟩, db')

/-! ### Registry map lemmas -/

theorem Handlers.get_setEntry_self (hs : Handlers) (s : String) (e : StateHandlers) :
    (hs.setEntry s e).get s = some e := by
  induction hs with
  | nil => simp [Handlers.setEntry, Handlers.get]
  | cons p t ih =>
    obtain ⟨k, v⟩ := p
    by_cases h : k = s
    · simp [Handlers.setEntry, Handlers.get, h]
    · simp [Handlers.setEntry, Handlers.get, h, ih]

theorem Handlers.get_setEntry_ne (hs : Handlers) {s s' : String} (h : s' ≠ s)
    (e : StateHandlers) : (hs.setEntry s e).get s' = hs.get s' := by
  induction hs with
  | nil => simp [Handlers.setEntry, Handlers.get, (Ne.symm h)]
  | cons p t ih =>
    obtain ⟨k, v⟩ := p
    by_cases hk : k = s
    · subst hk
      simp [Handlers.setEntry, Handlers.get, (Ne.symm h)]
    · simp [Handlers.setEntry, Handlers.get, hk, ih]

theorem BotBuilder.get_onEnterReg_self (b : BotBuilder) (s : String) (h : EnterH) :
    (b.onEnterReg s h).handlers.get s
      = some { ((b.handlers.get s).getD {}) with onEnter := some h } := by
  simp [BotBuilder.onEnterReg, Handlers.get_setEntry_self]

theorem BotBuilder.get_onEnterReg_ne (b : BotBuilder) {s s' : String} (h : s' ≠ s)
    (e : EnterH) : (b.onEnterReg s e).handlers.get s' = b.handlers.get s' := by
  simp [BotBuilder.onEnterReg, Handlers.get_setEntry_ne _ h]

theorem BotBuilder.get_onResponseReg_self (b : BotBuilder) (s : String) (h : RespH) :
    (b.onResponseReg s h).handlers.get s
      = some { ((b.handlers.get s).getD {}) with onResponse := some h } := by
  simp [BotBuilder.onResponseReg, Handlers.get_setEntry_self]

theorem BotBuilder.get_onResponseReg_ne (b : BotBuilder) {s s' : String} (h : s' ≠ s)
    (e : RespH) : (b.onResponseReg s e).handlers.get s' = b.handlers.get s' := by
  simp [BotBuilder.onResponseReg, Handlers.get_setEntry_ne _ h]

/-- C8: re-registering `onEnter` for a state replaces only that slot: the
second handler wins, execution invokes it, every state's `onResponse` slot
is untouched, the symmetric statement holds for `onResponse`, and entries
of other states are unchanged. -/
theorem claim_C8 (b : BotBuilder) (s s' : String) (e1 e2 : EnterH) (r1 r2 : RespH)
    (hne : s' ≠ s) :
    (((b.onEnterReg s e1).onEnterReg s e2).handlers.get s).bind (fun p => p.onEnter)
        = some e2
  ∧ (∀ t, (((b.onEnterReg s e1).onEnterReg s e2).handlers.get t).bind
        (fun p => p.onResponse) = (b.handlers.get t).bind (fun p => p.onResponse))
  ∧ (∀ cur d, ((b.onEnterReg s e1).onEnterReg s e2).executeOnEnter s cur d = e2 cur d)
  ∧ (((b.onResponseReg s r1).onResponseReg s r2).handlers.get s).bind
        (fun p => p.onResponse) = some r2
  ∧ (∀ t, (((b.onResponseReg s r1).onResponseReg s r2).handlers.get t).bind
        (fun p => p.onEnter) = (b.handlers.get t).bind (fun p => p.onEnter))
  ∧ ((b.onEnterReg s e1).onEnterReg s e2).handlers.get s' = b.handlers.get s' := by
  refine ⟨?_, ?_, ?_, ?_, ?_, ?_⟩
  · simp [BotBuilder.get_onEnterReg_self]
  · intro t
    by_cases ht : t = s
    · subst ht
      simp [BotBuilder.get_onEnterReg_self]
      cases hg : b.handlers.get t <;> simp [hg]
    · simp [BotBuilder.get_onEnterReg_ne _ ht]
  · intro cur d
    simp [BotBuilder.executeOnEnter, BotBuilder.get_onEnterReg_self]
  · simp [BotBuilder.get_onResponseReg_self]
  · intro t
    by_cases ht : t = s
    · subst ht
      simp [BotBuilder.get_onResponseReg_self]
      cases hg : b.handlers.get t <;> simp [hg]
    · simp [BotBuilder.get_onResponseReg_ne _ ht]
  · simp [BotBuilder.get_onEnterReg_ne _ hne]

/-- Witness for C8 at a concrete registry: after registering two `onEnter`
handlers for `"a"`, execution runs the second one. -/
theorem claim_C8_witness :
    (((⟨[]⟩ : BotBuilder).onEnterReg "a" (fun _ d => .ok (some "b") d)).onEnterReg "a"
        (fun _ d => .ok none d)).executeOnEnter "a" "x" [] = .ok none [] := by
  exact (claim_C8 ⟨[]⟩ "a" "b" (fun _ d => .ok (some "b") d) (fun _ d => .ok none d)
    (fun _ _ d => .ok none d) (fun _ _ d => .ok none d) (by decide)).2.2.1 "x" []

/-! ### Session creation -/

theorem Db.get_append_single (db : Db) (tid : String) (u : UserData)
    (h : db.getUserByTelegramId tid = none) :
    (db ++ [(tid, u)]).getUserByTelegramId tid = some u := by
  induction db with
  | nil => simp [Db.getUserByTelegramId]
  | cons p t ih =>
    obtain ⟨k, v⟩ := p
    by_cases hk : k = tid
    · simp [Db.getUserByTelegramId, hk] at h
    · simp [Db.getUserByTelegramId, hk] at h ⊢
      exact ih h

/-- C10: for an unseen identity, `getOrCreateSession` reports
`isNew = true` with state `"idle"` and empty data and creates the durable
record; a second call (and in general any call on a database that has the
record) reports `isNew = false` and returns the persisted state and data. -/
theorem claim_C10 (db : Db) (tid cid : String)
    (h : db.getUserByTelegramId tid = none) :
    (getOrCreateSession tid cid db).1.isNew = true
  ∧ (getOrCreateSession tid cid db).1.session.currentState = "idle"
  ∧ (getOrCreateSession tid cid db).1.session.stateData = []
  ∧ (∃ u, ((getOrCreateSession tid cid db).2).getUserByTelegramId tid = some u
        ∧ u.currentState = "idle" ∧ u.info = some [])
  ∧ (getOrCreateSession tid cid ((getOrCreateSession tid cid db).2)).1.isNew = false
  ∧ (getOrCreateSession tid cid
        ((getOrCreateSession tid cid db).2)).1.session.currentState = "idle"
  ∧ (getOrCreateSession tid cid
        ((getOrCreateSession tid cid db).2)).1.session.stateData = []
  ∧ (∀ (db' : Db) (u : UserData), db'.getUserByTelegramId tid = some u →
      (getOrCreateSession tid cid db').1
        = ⟨⟨u.currentState, u.info.getD [], u.id, u.chatId⟩, false⟩) := by
  have hsome : ∀ (db' : Db) (u : UserData), db'.getUserByTelegramId tid = some u →
      getOrCreateSession tid cid db'
        = (⟨⟨u.currentState, u.info.getD [], u.id, u.chatId⟩, false⟩, db') := by
    intro db' u hu
    simp [getOrCreateSession, hu]
  have hget : ((getOrCreateSession tid cid db).2).getUserByTelegramId tid
      = some ⟨db.length, tid, cid, "idle", some []⟩ := by
    simp only [getOrCreateSession, h, Db.createOrUpdateUser]
    exact Db.get_append_single db tid _ h
  refine ⟨?_, ?_, ?_, ⟨⟨db.length, tid, cid, "idle", some []⟩, hget, rfl, rfl⟩, ?_, ?_, ?_, ?_⟩
  · simp [getOrCreateSession, h, Db.createOrUpdateUser]
  · simp [getOrCreateSession, h, Db.createOrUpdateUser]
  · simp [getOrCreateSession, h, Db.createOrUpdateUser]
  · rw [hsome _ _ hget]
  · rw [hsome _ _ hget]
  · rw [hsome _ _ hget]
    rfl
  · intro db' u hu
    rw [hsome _ _ hu]

/-- Witness for C10: a fresh one-record database behaves as stated. -/
theorem claim_C10_witness :
    (getOrCreateSession "7" "c" []).1.isNew = true
  ∧ (getOrCreateSession "7" "c" []).1.session.currentState = "idle"
  ∧ (getOrCreateSession "7" "c"
        ((getOrCreateSession "7" "c" []).2)).1.isNew = false := by
  have h := claim_C10 [] "7" "c" (by decide)
  exact ⟨h.1, h.2.1, h.2.2.2.2.1⟩

/-! ### Engine lemmas for `transitionToState` -/

/-- Step equation: a thrown `onEnter` leaves the session's `currentState`
already mutated to the target state and the store unsaved. -/
theorem transitionToState_eq_thrown (b : BotBuilder) (n : Nat) (sess : SessionData)
    (toState : String) (ctx : Ctx)
    (hE : b.executeOnEnter toState ctx.currentState ctx.localStateData = .thrown) :
    transitionToState b (n + 1) sess toState ctx
      = ⟨.errored, ⟨toState, sess.stateData⟩,
          [⟨toState, ctx.currentState, ctx.localStateData⟩]⟩ := by
  rw [transitionToState, hE]

/-- Step equation: `onEnter` returning `undefined` ends the chain. -/
theorem transitionToState_eq_none (b : BotBuilder) (n : Nat) (sess : SessionData)
    (toState : String) (ctx : Ctx) (d : Data)
    (hE : b.executeOnEnter toState ctx.currentState ctx.localStateData = .ok none d) :
    transitionToState b (n + 1) sess toState ctx
      = ⟨.ok, ⟨toState, d⟩, [⟨toState, ctx.currentState, ctx.localStateData⟩]⟩ := by
  rw [transitionToState, hE]

/-- Step equation: a falsy (`""`) or same-state return ends the chain. -/
theorem transitionToState_eq_stop (b : BotBuilder) (n : Nat) (sess : SessionData)
    (toState : String) (ctx : Ctx) (s2 : String) (d : Data)
    (hE : b.executeOnEnter toState ctx.currentState ctx.localStateData = .ok (some s2) d)
    (h : ¬(s2 ≠ "" ∧ s2 ≠ toState)) :
    transitionToState b (n + 1) sess toState ctx
      = ⟨.ok, ⟨toState, d⟩, [⟨toState, ctx.currentState, ctx.localStateData⟩]⟩ := by
  rw [transitionToState, hE]
  simp [h]

/-- Step equation: a truthy different state chains with a fresh context
seeded from the just-saved store. -/
theorem transitionToState_eq_chain (b : BotBuilder) (n : Nat) (sess : SessionData)
    (toState : String) (ctx : Ctx) (s2 : String) (d : Data)
    (hE : b.executeOnEnter toState ctx.currentState ctx.localStateData = .ok (some s2) d)
    (h1 : s2 ≠ "") (h2 : s2 ≠ toState) :
    transitionToState b (n + 1) sess toState ctx
      = ⟨(transitionToState b n ⟨toState, d⟩ s2 ⟨s2, d⟩).status,
          (transitionToState b n ⟨toState, d⟩ s2 ⟨s2, d⟩).sess,
          ⟨toState, ctx.currentState, ctx.localStateData⟩
            :: (transitionToState b n ⟨toState, d⟩ s2 ⟨s2, d⟩).trace⟩ := by
  rw [transitionToState, hE]
  simp [h1, h2]

/-- Every `transitionToState` call first invokes `executeOnEnter` for its
target state with the context object it was handed. -/
theorem transitionToState_trace_head (b : BotBuilder) (n : Nat) (sess : SessionData)
    (toState : String) (ctx : Ctx) :
    (transitionToState b (n + 1) sess toState ctx).trace.head?
      = some ⟨toState, ctx.currentState, ctx.localStateData⟩ := by
  cases hE : b.executeOnEnter toState ctx.currentState ctx.localStateData with
  | thrown => rw [transitionToState_eq_thrown b n sess toState ctx hE]; rfl
  | ok next d =>
    cases next with
    | none => rw [transitionToState_eq_none b n sess toState ctx d hE]; rfl
    | some s2 =>
      by_cases hcond : s2 ≠ "" ∧ s2 ≠ toState
      · rw [transitionToState_eq_chain b n sess toState ctx s2 d hE hcond.1 hcond.2]; rfl
      · rw [transitionToState_eq_stop b n sess toState ctx s2 d hE hcond]; rfl

/-- Unless the whole call returned without entering anything (the fuel-0
cut of the embedding), the state of the last `executeOnEnter` call in the
trace is the session's final `currentState`. -/
theorem transitionToState_trace_getLast (b : BotBuilder) :
    ∀ (fuel : Nat) (sess : SessionData) (toState : String) (ctx : Ctx),
    ((transitionToState b fuel sess toState ctx).trace = []
        ∧ (transitionToState b fuel sess toState ctx).sess = sess)
    ∨ ((transitionToState b fuel sess toState ctx).trace.getLast?).map EnterCall.state
        = some (transitionToState b fuel sess toState ctx).sess.currentState := by
  intro fuel
  induction fuel with
  | zero =>
    intro sess toState ctx
    exact Or.inl ⟨rfl, rfl⟩
  | succ n ih =>
    intro sess toState ctx
    cases hE : b.executeOnEnter toState ctx.currentState ctx.localStateData with
    | thrown =>
      rw [transitionToState_eq_thrown b n sess toState ctx hE]
      exact Or.inr rfl
    | ok next d =>
      cases next with
      | none =>
        rw [transitionToState_eq_none b n sess toState ctx d hE]
        exact Or.inr rfl
      | some s2 =>
        by_cases hcond : s2 ≠ "" ∧ s2 ≠ toState
        · rw [transitionToState_eq_chain b n sess toState ctx s2 d hE hcond.1 hcond.2]
          rcases ih ⟨toState, d⟩ s2 ⟨s2, d⟩ with ⟨htr, hsess⟩ | hlast
          · right
            rw [htr, hsess]
            rfl
          · rcases hne : (transitionToState b n ⟨toState, d⟩ s2 ⟨s2, d⟩).trace
                with _ | ⟨c, cs⟩
            · rw [hne] at hlast
              simp at hlast
            · rw [hne] at hlast
              right
              simpa using hlast
        · rw [transitionToState_eq_stop b n sess toState ctx s2 d hE hcond]
          exact Or.inr rfl

/-- If a chained run ends with a thrown handler, the session's in-memory
`currentState` is the state whose `onEnter` threw (the last trace entry),
not the pre-transition state. -/
theorem transitionToState_errored_trace_ne_nil (b : BotBuilder) :
    ∀ (fuel : Nat) (sess : SessionData) (toState : String) (ctx : Ctx),
    (transitionToState b fuel sess toState ctx).status = .errored →
    ((transitionToState b fuel sess toState ctx).trace.getLast?).map EnterCall.state
      = some (transitionToState b fuel sess toState ctx).sess.currentState := by
  intro fuel sess toState ctx hst
  rcases transitionToState_trace_getLast b fuel sess toState ctx with ⟨htr, _⟩ | hlast
  · cases fuel with
    | zero => simp [transitionToState] at hst
    | succ n =>
      have := transitionToState_trace_head b n sess toState ctx
      rw [htr] at this
      simp at this
  · exact hlast

/-- The working store is carried through the chain: if the store given to
a `transitionToState` call maps `k` to `v` and every registered enter
handler preserves key `k`, then every `executeOnEnter` call of the chain
sees `k ↦ v` in its store. -/
theorem transitionToState_key_invariant (b : BotBuilder) (k v : String)
    (hpres : ∀ s cur d next d', b.executeOnEnter s cur d = .ok next d' →
        d'.getKey k = d.getKey k) :
    ∀ (fuel : Nat) (sess : SessionData) (toState : String) (ctx : Ctx),
    ctx.localStateData.getKey k = some v →
    ∀ c ∈ (transitionToState b fuel sess toState ctx).trace,
      c.dataIn.getKey k = some v := by
  intro fuel
  induction fuel with
  | zero =>
    intro sess toState ctx _ c hc
    simp [transitionToState] at hc
  | succ n ih =>
    intro sess toState ctx hd c hc
    cases hE : b.executeOnEnter toState ctx.currentState ctx.localStateData with
    | thrown =>
      rw [transitionToState_eq_thrown b n sess toState ctx hE] at hc
      simp at hc
      simp [hc, hd]
    | ok next d =>
      cases next with
      | none =>
        rw [transitionToState_eq_none b n sess toState ctx d hE] at hc
        simp at hc
        simp [hc, hd]
      | some s2 =>
        by_cases hcond : s2 ≠ "" ∧ s2 ≠ toState
        · rw [transitionToState_eq_chain b n sess toState ctx s2 d hE hcond.1 hcond.2]
            at hc
          simp only [List.mem_cons] at hc
          rcases hc with hc | hc
          · simp [hc, hd]
          · have hd' : (d : Data).getKey k = some v := by
              rw [hpres toState ctx.currentState ctx.localStateData _ _ hE]
              exact hd
            exact ih ⟨toState, d⟩ s2 ⟨s2, d⟩ hd' c hc
        · rw [transitionToState_eq_stop b n sess toState ctx s2 d hE hcond] at hc
          simp at hc
          simp [hc, hd]

/-! ### C4: same-state return from onEnter stops the chain -/

/-- C4: when the registered `onEnter` for `A` returns `A` itself, driving
a transition to `A` invokes it exactly once and the run ends successfully
in state `A` with the handler's mutations saved. -/
theorem claim_C4 (b : BotBuilder) (A : String) (f : String → Data → Data)
    (hs : StateHandlers) (hget : b.handlers.get A = some hs)
    (hh : hs.onEnter = some (fun cur d => .ok (some A) (f cur d)))
    (n : Nat) (sess : SessionData) (ctx : Ctx) :
    (transitionToState b (n + 1) sess A ctx).trace
        = [⟨A, ctx.currentState, ctx.localStateData⟩]
  ∧ (transitionToState b (n + 1) sess A ctx).status = .ok
  ∧ (transitionToState b (n + 1) sess A ctx).sess
        = ⟨A, f ctx.currentState ctx.localStateData⟩ := by
  have hE : b.executeOnEnter A ctx.currentState ctx.localStateData
      = .ok (some A) (f ctx.currentState ctx.localStateData) := by
    simp [BotBuilder.executeOnEnter, hget, hh]
  rw [transitionToState, hE]
  simp

/-- Witness for C4 at a concrete registry and input. -/
theorem claim_C4_witness :
    (transitionToState ⟨[("a", ⟨some (fun _ d => .ok (some "a") d), none⟩)]⟩ 5
        ⟨"s0", []⟩ "a" ⟨"s0", []⟩).trace = [⟨"a", "s0", []⟩]
  ∧ (transitionToState ⟨[("a", ⟨some (fun _ d => .ok (some "a") d), none⟩)]⟩ 5
        ⟨"s0", []⟩ "a" ⟨"s0", []⟩).status = .ok
  ∧ (transitionToState ⟨[("a", ⟨some (fun _ d => .ok (some "a") d), none⟩)]⟩ 5
        ⟨"s0", []⟩ "a" ⟨"s0", []⟩).sess = ⟨"a", []⟩ := by
  exact claim_C4 ⟨[("a", ⟨some (fun _ d => .ok (some "a") d), none⟩)]⟩ "a"
    (fun _ d => d) ⟨some (fun _ d => .ok (some "a") d), none⟩ rfl rfl 4 ⟨"s0", []⟩ ⟨"s0", []⟩

/-! ### C2: cyclic onEnter chain — the source recursion never terminates -/

/-- Two enter handlers forming a cycle: `onEnter("A") -> "B"` and
`onEnter("B") -> "A"` (the spec's P5 scenario), registered through the
builder API. -/
def loopBuilder : BotBuilder :=
  ((⟨[]⟩ : BotBuilder).onEnterReg "A" (fun _ d => .ok (some "B") d)).onEnterReg "B"
    (fun _ d => .ok (some "A") d)

/-- C2 (evaluation of the code at the failing input): on the cyclic
handler pair, `transitionToState` exhausts every recursion-depth budget —
the run is never finished, one handler invocation per available depth —
and no transition-loop error value exists anywhere in the engine.  The
spec's required loop guard is absent from the source. -/
theorem claim_C2 : ∀ (n : Nat) (sess : SessionData) (ctx : Ctx),
    ((transitionToState loopBuilder n sess "A" ctx).status = .fuelOut
      ∧ (transitionToState loopBuilder n sess "A" ctx).trace.length = n)
  ∧ ((transitionToState loopBuilder n sess "B" ctx).status = .fuelOut
      ∧ (transitionToState loopBuilder n sess "B" ctx).trace.length = n) := by
  intro n
  induction n with
  | zero =>
    intro sess ctx
    exact ⟨⟨rfl, rfl⟩, ⟨rfl, rfl⟩⟩
  | succ m ih =>
    intro sess ctx
    have hA : loopBuilder.executeOnEnter "A" ctx.currentState ctx.localStateData
        = .ok (some "B") ctx.localStateData := rfl
    have hB : loopBuilder.executeOnEnter "B" ctx.currentState ctx.localStateData
        = .ok (some "A") ctx.localStateData := rfl
    constructor
    · rw [transitionToState, hA]
      simp only [ne_eq, String.reduceEq, not_false_eq_true, and_self, ite_true]
      have := (ih { currentState := "A", stateData := ctx.localStateData }
        ⟨"B", ctx.localStateData⟩).2
      simp [this.1, this.2]
    · rw [transitionToState, hB]
      simp only [ne_eq, String.reduceEq, not_false_eq_true, and_self, ite_true]
      have := (ih { currentState := "B", stateData := ctx.localStateData }
        ⟨"A", ctx.localStateData⟩).1
      simp [this.1, this.2]

/-! ### C6: same-state onResponse return handled inconsistently -/

/-- A registry whose `onResponse` for `"S"` returns the current state
`"S"` and whose `onEnter` for `"S"` marks that it ran. -/
def sameStateBuilder : BotBuilder :=
  ((⟨[]⟩ : BotBuilder).onResponseReg "S" (fun _ _ d => .ok (some "S") d)).onEnterReg "S"
    (fun _ d => .ok none (d.setKey "entered" "yes"))

/-- C6: on the same input (state `"S"`, any message), the
injected-database polling runtime re-enters the state — it runs
`onEnter("S")` and keeps its mutation — while the telegram-client runtime
treats the identical-state return as no transition: no `onEnter` call, no
durable write, no mutation.  The two runtimes are not behaviorally
equivalent on same-state `onResponse` returns. -/
theorem claim_C6 :
    (handleTextMessage sameStateBuilder 5 ⟨"S", []⟩ "msg").trace = [⟨"S", "S", []⟩]
  ∧ (handleTextMessage sameStateBuilder 5 ⟨"S", []⟩ "msg").sess
      = ⟨"S", [("entered", "yes")]⟩
  ∧ (handleUserMessage sameStateBuilder "S" [] "msg").enterTrace = []
  ∧ (handleUserMessage sameStateBuilder "S" [] "msg").writes = []
  ∧ (handleUserMessage sameStateBuilder "S" [] "msg").stateData = [] := by
  refine ⟨rfl, rfl, rfl, rfl, rfl⟩

/-! ### C1: chaining follows a path -/

/-- A three-state enter chain `A -> B -> C -> stop`, registered through
the builder API; the `f` arguments are the handlers' store mutations. -/
def chainBuilder (A B C : String) (fA fB fC : String → Data → Data) : BotBuilder :=
  (((⟨[]⟩ : BotBuilder).onEnterReg A
      (fun cur d => .ok (some B) (fA cur d))).onEnterReg B
      (fun cur d => .ok (some C) (fB cur d))).onEnterReg C
      (fun cur d => .ok none (fC cur d))

/-- The concrete chain used to refute the context-freshness clause of C1:
`onEnter("A")` records the `currentState` it observes. -/
def chainCexBuilder : BotBuilder :=
  chainBuilder "A" "B" "C" (fun cur d => d.setKey "seenByA" cur)
    (fun _ d => d) (fun _ d => d)

/-- Counterexample for C1: driving a transition to `"A"` from state
`"S0"` runs the chain `A, B, C` exactly once each, but the first chain
step's context has `currentState = "S0"` (the pre-transition state), not
`"A"`: `onEnter("A")` observes and records `"S0"`.  The claim's "each
chain step runs with a freshly constructed context whose `currentState`
equals the state being entered" is false at this input. -/
theorem claim_C1_cex :
    (transitionToState chainCexBuilder 9 ⟨"S0", []⟩ "A"
        (createHandlerContext ⟨"S0", []⟩)).trace
      = [⟨"A", "S0", []⟩, ⟨"B", "B", [("seenByA", "S0")]⟩,
          ⟨"C", "C", [("seenByA", "S0")]⟩]
  ∧ ¬(∀ c ∈ (transitionToState chainCexBuilder 9 ⟨"S0", []⟩ "A"
        (createHandlerContext ⟨"S0", []⟩)).trace, c.ctxCurrentState = c.state)
  ∧ (transitionToState chainCexBuilder 9 ⟨"S0", []⟩ "A"
        (createHandlerContext ⟨"S0", []⟩)).sess.stateData.getKey "seenByA"
      = some "S0" := by
  refine ⟨rfl, ?_, rfl⟩
  decide

/-- C1 (amended): for every enter chain `onEnter(A)->B`, `onEnter(B)->C`,
`onEnter(C)->none` over distinct truthy identifiers, driving a transition
to `A` invokes `onEnter(A)`, `onEnter(B)`, `onEnter(C)` exactly once each
and in that order, ends successfully with the session's state equal to
`C`, and the working store accumulates through the chain; each chain step
after the first runs with a freshly constructed context whose
`currentState` is the entered state, while the first step runs with the
caller-provided context, whose `currentState` is still the pre-transition
state `S0`. -/
theorem claim_C1 (A B C S0 : String) (d0 : Data) (fA fB fC : String → Data → Data)
    (hAB : A ≠ B) (hAC : A ≠ C) (hBC : B ≠ C) (hB : B ≠ "") (hC : C ≠ "") (n : Nat) :
    (transitionToState (chainBuilder A B C fA fB fC) (n + 3) ⟨S0, d0⟩ A
        (createHandlerContext ⟨S0, d0⟩)).trace
      = [⟨A, S0, d0⟩, ⟨B, B, fA S0 d0⟩, ⟨C, C, fB B (fA S0 d0)⟩]
  ∧ (transitionToState (chainBuilder A B C fA fB fC) (n + 3) ⟨S0, d0⟩ A
        (createHandlerContext ⟨S0, d0⟩)).status = .ok
  ∧ (transitionToState (chainBuilder A B C fA fB fC) (n + 3) ⟨S0, d0⟩ A
        (createHandlerContext ⟨S0, d0⟩)).sess
      = ⟨C, fC C (fB B (fA S0 d0))⟩ := by
  have hgA : (chainBuilder A B C fA fB fC).handlers.get A
      = some ⟨some (fun cur d => .ok (some B) (fA cur d)), none⟩ := by
    rw [chainBuilder, BotBuilder.get_onEnterReg_ne _ hAC, BotBuilder.get_onEnterReg_ne _ hAB,
      BotBuilder.get_onEnterReg_self]
    rfl
  have hgB : (chainBuilder A B C fA fB fC).handlers.get B
      = some ⟨some (fun cur d => .ok (some C) (fB cur d)), none⟩ := by
    rw [chainBuilder, BotBuilder.get_onEnterReg_ne _ hBC, BotBuilder.get_onEnterReg_self]
    rw [BotBuilder.get_onEnterReg_ne _ (Ne.symm hAB)]
    rfl
  have hgC : (chainBuilder A B C fA fB fC).handlers.get C
      = some ⟨some (fun cur d => .ok none (fC cur d)), none⟩ := by
    rw [chainBuilder, BotBuilder.get_onEnterReg_self]
    rw [BotBuilder.get_onEnterReg_ne _ (Ne.symm hBC),
      BotBuilder.get_onEnterReg_ne _ (Ne.symm hAC)]
    rfl
  have hEA : ∀ cur d, (chainBuilder A B C fA fB fC).executeOnEnter A cur d
      = .ok (some B) (fA cur d) := by
    intro cur d
    simp [BotBuilder.executeOnEnter, hgA]
  have hEB : ∀ cur d, (chainBuilder A B C fA fB fC).executeOnEnter B cur d
      = .ok (some C) (fB cur d) := by
    intro cur d
    simp [BotBuilder.executeOnEnter, hgB]
  have hEC : ∀ cur d, (chainBuilder A B C fA fB fC).executeOnEnter C cur d
      = .ok none (fC cur d) := by
    intro cur d
    simp [BotBuilder.executeOnEnter, hgC]
  have h1 : transitionToState (chainBuilder A B C fA fB fC) (n + 3) ⟨S0, d0⟩ A
        (createHandlerContext ⟨S0, d0⟩)
      = ⟨(transitionToState (chainBuilder A B C fA fB fC) (n + 2) ⟨A, fA S0 d0⟩ B
            ⟨B, fA S0 d0⟩).status,
          (transitionToState (chainBuilder A B C fA fB fC) (n + 2) ⟨A, fA S0 d0⟩ B
            ⟨B, fA S0 d0⟩).sess,
          ⟨A, S0, d0⟩ :: (transitionToState (chainBuilder A B C fA fB fC) (n + 2)
            ⟨A, fA S0 d0⟩ B ⟨B, fA S0 d0⟩).trace⟩ :=
    transitionToState_eq_chain (chainBuilder A B C fA fB fC) (n + 2) ⟨S0, d0⟩ A
      (createHandlerContext ⟨S0, d0⟩) B (fA S0 d0) (hEA _ _) hB (Ne.symm hAB)
  have h2 : transitionToState (chainBuilder A B C fA fB fC) (n + 2) ⟨A, fA S0 d0⟩ B
        ⟨B, fA S0 d0⟩
      = ⟨(transitionToState (chainBuilder A B C fA fB fC) (n + 1) ⟨B, fB B (fA S0 d0)⟩
            C ⟨C, fB B (fA S0 d0)⟩).status,
          (transitionToState (chainBuilder A B C fA fB fC) (n + 1) ⟨B, fB B (fA S0 d0)⟩
            C ⟨C, fB B (fA S0 d0)⟩).sess,
          ⟨B, B, fA S0 d0⟩ :: (transitionToState (chainBuilder A B C fA fB fC) (n + 1)
            ⟨B, fB B (fA S0 d0)⟩ C ⟨C, fB B (fA S0 d0)⟩).trace⟩ :=
    transitionToState_eq_chain (chainBuilder A B C fA fB fC) (n + 1) ⟨A, fA S0 d0⟩ B
      ⟨B, fA S0 d0⟩ C (fB B (fA S0 d0)) (hEB _ _) hC (Ne.symm hBC)
  have h3 : transitionToState (chainBuilder A B C fA fB fC) (n + 1) ⟨B, fB B (fA S0 d0)⟩
        C ⟨C, fB B (fA S0 d0)⟩
      = ⟨.ok, ⟨C, fC C (fB B (fA S0 d0))⟩, [⟨C, C, fB B (fA S0 d0)⟩]⟩ :=
    transitionToState_eq_none (chainBuilder A B C fA fB fC) n ⟨B, fB B (fA S0 d0)⟩ C
      ⟨C, fB B (fA S0 d0)⟩ (fC C (fB B (fA S0 d0))) (hEC _ _)
  rw [h1, h2, h3]
  exact ⟨rfl, rfl, rfl⟩

/-- Witness for C1 at the concrete chain of the counterexample. -/
theorem claim_C1_witness :
    (transitionToState chainCexBuilder 5 ⟨"S0", []⟩ "A"
        (createHandlerContext ⟨"S0", []⟩)).trace
      = [⟨"A", "S0", []⟩, ⟨"B", "B", [("seenByA", "S0")]⟩,
          ⟨"C", "C", [("seenByA", "S0")]⟩]
  ∧ (transitionToState chainCexBuilder 5 ⟨"S0", []⟩ "A"
        (createHandlerContext ⟨"S0", []⟩)).status = .ok
  ∧ (transitionToState chainCexBuilder 5 ⟨"S0", []⟩ "A"
        (createHandlerContext ⟨"S0", []⟩)).sess = ⟨"C", [("seenByA", "S0")]⟩ := by
  exact claim_C1 "A" "B" "C" "S0" [] (fun cur d => d.setKey "seenByA" cur)
    (fun _ d => d) (fun _ d => d) (by decide) (by decide) (by decide) (by decide)
    (by decide) 2

/-! ### C5: state-data continuity across the chain -/

/-- C5: if the `onResponse` step of a `message:text` cycle leaves `k ↦ v`
in the working store and every registered enter handler preserves key `k`,
then every chained `executeOnEnter` call of that cycle sees `k ↦ v` in the
store its context reads from — the store is shared across all transition
steps of the cycle. -/
theorem claim_C5 (b : BotBuilder) (sess : SessionData) (text : String) (k v : String)
    (fuel : Nat) (r : Option String) (d1 : Data)
    (hresp : b.executeOnResponse sess.currentState sess.currentState text sess.stateData
        = .ok r d1)
    (hk : d1.getKey k = some v)
    (hpres : ∀ s cur d next d', b.executeOnEnter s cur d = .ok next d' →
        d'.getKey k = d.getKey k) :
    ∀ c ∈ (handleTextMessage b fuel sess text).trace, c.dataIn.getKey k = some v := by
  intro c hc
  unfold handleTextMessage at hc
  simp only [createHandlerContext] at hc
  split at hc
  · simp at hc
  · rename_i nextState d' heq
    rw [hresp] at heq
    injection heq with h1 h2
    subst h1
    subst h2
    split at hc
    · split at hc
      · exact transitionToState_key_invariant b k v hpres fuel sess _
          ⟨sess.currentState, d1⟩ hk c hc
      · simp at hc
    · simp at hc

/-- The registry used to witness C5: `onResponse("S0")` stores `k ↦ v`
and moves to `"S1"`, whose `onEnter` leaves the store unchanged. -/
def c5Builder : BotBuilder :=
  ((⟨[]⟩ : BotBuilder).onResponseReg "S0"
      (fun _ _ d => .ok (some "S1") (d.setKey "k" "v"))).onEnterReg "S1"
    (fun _ d => .ok none d)

/-- Every enter handler of `c5Builder` preserves key `"k"`. -/
theorem c5Builder_preserves : ∀ s cur d next d',
    c5Builder.executeOnEnter s cur d = .ok next d' →
    Data.getKey d' "k" = Data.getKey d "k" := by
  intro s cur d next d' h
  simp only [BotBuilder.executeOnEnter,
    show c5Builder.handlers
        = [("S0", ⟨none, some (fun _ _ d => .ok (some "S1") (d.setKey "k" "v"))⟩),
           ("S1", ⟨some (fun _ d => .ok none d), none⟩)] from rfl,
    Handlers.get] at h
  split_ifs at h <;> simp_all

/-- Witness for C5: the chained `onEnter("S1")` call of the concrete cycle
reads `k ↦ v` from its store. -/
theorem claim_C5_witness :
    (⟨"S1", "S0", [("k", "v")]⟩ : EnterCall).dataIn.getKey "k" = some "v" := by
  exact claim_C5 c5Builder ⟨"S0", []⟩ "go" "k" "v" 5 (some "S1") [("k", "v")] rfl rfl
    c5Builder_preserves ⟨"S1", "S0", [("k", "v")]⟩ (by decide)

/-! ### C3: what survives a thrown handler -/

/-- Registry where `onResponse("S0")` transitions to `"S1"`, whose `onEnter` throws. -/
def c3CexBuilder : BotBuilder :=
  ((⟨[]⟩ : BotBuilder).onResponseReg "S0"
      (fun _ _ d => .ok (some "S1") d)).onEnterReg "S1" (fun _ _ => .thrown)

/-- Counterexample for C3: when the chained `onEnter("S1")` throws, the
telegram-client runtime has already durably persisted the transition to
`"S1"` (an `updateUserState` write precedes the handler call), and the
polling runtime's in-memory session already reads `"S1"`; neither remains
at the pre-step state `"S0"`, refuting the claim's "no persistence of a
transition occurs before that transition step's handler has completed". -/
theorem claim_C3_cex :
    (handleUserMessage c3CexBuilder "S0" [] "m").status = .errored
  ∧ (handleUserMessage c3CexBuilder "S0" [] "m").writes = [("S1", [])]
  ∧ ¬((handleUserMessage c3CexBuilder "S0" [] "m").writes = []
        ∨ (handleUserMessage c3CexBuilder "S0" [] "m").writes.map Prod.fst = ["S0"])
  ∧ (handleTextMessage c3CexBuilder 5 ⟨"S0", []⟩ "m").status = .errored
  ∧ (handleTextMessage c3CexBuilder 5 ⟨"S0", []⟩ "m").sess.currentState = "S1" := by
  refine ⟨rfl, rfl, ?_, rfl, rfl⟩
  decide

/-- C3 (amended): a thrown handler surfaces as an errored cycle, and what
is recorded is exactly the transitions produced by handlers that completed
successfully.  In the telegram-client runtime, either `onResponse` threw —
then nothing was written and the context state is unchanged — or the last
durable write names precisely the state whose `onEnter` was running when
the throw occurred (the transition *into* the failing state is persisted,
nothing beyond it).  In the polling runtime, either `onResponse` threw and
the in-memory session is untouched, or the session's `currentState` is the
state of the last `executeOnEnter` call of the chain. -/
theorem claim_C3 :
    (∀ (b : BotBuilder) (S0 : String) (d0 : Data) (text : String),
      (handleUserMessage b S0 d0 text).status = .errored →
      ((handleUserMessage b S0 d0 text).writes = []
          ∧ (handleUserMessage b S0 d0 text).ctxCurrent = S0)
      ∨ ((handleUserMessage b S0 d0 text).writes.getLast?).map Prod.fst
          = some (handleUserMessage b S0 d0 text).ctxCurrent)
  ∧ (∀ (b : BotBuilder) (fuel : Nat) (sess : SessionData) (text : String),
      (handleTextMessage b fuel sess text).status = .errored →
      (handleTextMessage b fuel sess text).sess = sess
      ∨ ((handleTextMessage b fuel sess text).trace.getLast?).map EnterCall.state
          = some (handleTextMessage b fuel sess text).sess.currentState) := by
  constructor
  · intro b S0 d0 text
    simp only [handleUserMessage]
    split
    · intro _
      exact Or.inl ⟨rfl, rfl⟩
    · split
      · split
        · split
          · intro _
            exact Or.inr (by simp)
          · split
            · split
              · split
                · intro _
                  exact Or.inr (by simp)
                · intro h
                  simp at h
              · intro h
                simp at h
            · intro h
              simp at h
        · split
          · intro h
            simp at h
          · intro h
            simp at h
      · split
        · intro h
          simp at h
        · intro h
          simp at h
  · intro b fuel sess text
    simp only [handleTextMessage, createHandlerContext]
    split
    · intro _
      exact Or.inl rfl
    · split
      · split
        · intro h
          exact Or.inr (transitionToState_errored_trace_ne_nil b fuel sess _ _ h)
        · intro h
          simp at h
      · intro h
        simp at h

/-- Witness for C3 at the concrete throwing chain: the last durable write
of the errored telegram-client cycle names the state whose `onEnter`
threw. -/
theorem claim_C3_witness :
    ((handleUserMessage c3CexBuilder "S0" [] "m").writes = []
        ∧ (handleUserMessage c3CexBuilder "S0" [] "m").ctxCurrent = "S0")
    ∨ ((handleUserMessage c3CexBuilder "S0" [] "m").writes.getLast?).map Prod.fst
        = some (handleUserMessage c3CexBuilder "S0" [] "m").ctxCurrent := by
  exact claim_C3.1 c3CexBuilder "S0" [] "m" rfl

/-! ### C7: the `context.transition` facade -/

/-- A registry with a real `onEnter` for `"B"` (it mutates the store). -/
def c7CexBuilder : BotBuilder :=
  (⟨[]⟩ : BotBuilder).onEnterReg "B" (fun _ d => .ok none (d.setKey "entered" "1"))

/-- Counterexample for C7: in the telegram-client runtime, with an
`onEnter("B")` registered and ready to run, a handler calling
`context.transition("B")` only updates the XState actor's internal
context: no `executeOnEnter` call is made, no durable write happens, and
the handler context's `currentState` and the working store are untouched —
the facade bypasses the onEnter-and-persistence protocol. -/
theorem claim_C7_cex :
    c7CexBuilder.executeOnEnter "B" "B" [] = .ok none [("entered", "1")]
  ∧ (part000Transition ⟨"A"⟩ "A" [] "B").enterTrace = []
  ∧ (part000Transition ⟨"A"⟩ "A" [] "B").writes = []
  ∧ (part000Transition ⟨"A"⟩ "A" [] "B").ctxCurrent = "A"
  ∧ (part000Transition ⟨"A"⟩ "A" [] "B").stateData = []
  ∧ (part000Transition ⟨"A"⟩ "A" [] "B").actor = ⟨"B"⟩ := by
  exact ⟨rfl, rfl, rfl, rfl, rfl, rfl⟩

/-- C7 (amended): in the injected-database polling runtime,
`context.transition(toState)` funnels through `transitionToState`: its
first `executeOnEnter` call is for `toState`, made with a freshly created
context whose `currentState` is the session's pre-call state and whose
store is seeded from the session's `stateData` (not the calling handler's
in-flight local copy), and the chain it follows leaves the session's
`currentState` at the last entered state.  In the telegram-client runtime,
`transition` bypasses the protocol entirely: it only rewrites the actor's
internal `currentState`. -/
theorem claim_C7 :
    (∀ (b : BotBuilder) (n : Nat) (sess : SessionData) (toState : String),
      (pollingTransition b (n + 1) sess toState).trace.head?
        = some ⟨toState, sess.currentState, sess.stateData⟩)
  ∧ (∀ (b : BotBuilder) (n : Nat) (sess : SessionData) (toState : String),
      ((pollingTransition b (n + 1) sess toState).trace.getLast?).map EnterCall.state
        = some (pollingTransition b (n + 1) sess toState).sess.currentState)
  ∧ (∀ (act : ActorCtx) (cur : String) (d : Data) (toState : String),
      part000Transition act cur d toState = ⟨⟨toState⟩, cur, d, [], []⟩) := by
  refine ⟨?_, ?_, ?_⟩
  · intro b n sess toState
    exact transitionToState_trace_head b n sess toState (createHandlerContext sess)
  · intro b n sess toState
    rcases transitionToState_trace_getLast b (n + 1) sess toState
        (createHandlerContext sess) with ⟨htr, _⟩ | h
    · have hh := transitionToState_trace_head b n sess toState (createHandlerContext sess)
      rw [htr] at hh
      simp at hh
    · exact h
  · intro act cur d toState
    rfl

/-! ### C9: when a durable write happens -/

/-- Registry where `onResponse("a")` moves to `"b"`, whose `onEnter` moves back to
`"a"`: a cycle that ends where it started with unchanged data. -/
def c9CexBuilder : BotBuilder :=
  ((⟨[]⟩ : BotBuilder).onResponseReg "a"
      (fun _ _ d => .ok (some "b") d)).onEnterReg "b" (fun _ d => .ok (some "a") d)

/-- Counterexample for C9: the cycle `a -> b -> a` performs two durable
writes even though the final state equals the initial state and the state
data is unchanged by value — refuting both the "write iff final data
differs or state changed" reading and the "one logical update" clause. -/
theorem claim_C9_cex :
    (handleUserMessage c9CexBuilder "a" [] "m").status = .ok
  ∧ (handleUserMessage c9CexBuilder "a" [] "m").writes = [("b", []), ("a", [])]
  ∧ (handleUserMessage c9CexBuilder "a" [] "m").ctxCurrent = "a"
  ∧ (handleUserMessage c9CexBuilder "a" [] "m").stateData = []
  ∧ (handleUserMessage c9CexBuilder "a" [] "m").writes.length = 2 := by
  exact ⟨rfl, rfl, rfl, rfl, rfl⟩

/-- C9 (amended): in a successful telegram-client cycle, a durable write
occurs iff the cycle performed a transition step or the working data
changed by value; a cycle without transition steps performs at most one
write, which records the unchanged current state together with the final
data; and a cycle never performs more than two writes (each writing state
and data together). -/
theorem claim_C9 (b : BotBuilder) (S0 : String) (d0 : Data) (text : String)
    (h : (handleUserMessage b S0 d0 text).status = .ok) :
    ((handleUserMessage b S0 d0 text).writes = []
        ↔ ((handleUserMessage b S0 d0 text).enterTrace = []
            ∧ (handleUserMessage b S0 d0 text).stateData = d0))
  ∧ ((handleUserMessage b S0 d0 text).enterTrace = [] →
      (handleUserMessage b S0 d0 text).writes = []
      ∨ (handleUserMessage b S0 d0 text).writes
          = [(S0, (handleUserMessage b S0 d0 text).stateData)])
  ∧ (handleUserMessage b S0 d0 text).writes.length ≤ 2 := by
  revert h
  simp only [handleUserMessage]
  split
  · intro h
    simp at h
  · split
    · split
      · split
        · intro h
          simp at h
        · split
          · split
            · split
              · intro h
                simp at h
              · intro _
                refine ⟨by simp, by simp, by simp⟩
            · intro _
              refine ⟨by simp, by simp, by simp⟩
          · intro _
            refine ⟨by simp, by simp, by simp⟩
      · split
        · rename_i hne
          intro _
          refine ⟨by simp [hne], by simp, by simp⟩
        · rename_i hne
          intro _
          have heq : _ = d0 := not_ne_iff.mp hne
          refine ⟨by simp [heq], by simp, by simp⟩
    · split
      · rename_i hne
        intro _
        refine ⟨by simp [hne], by simp, by simp⟩
      · rename_i hne
        intro _
        have heq : _ = d0 := not_ne_iff.mp hne
        refine ⟨by simp [heq], by simp, by simp⟩

/-- Witness for C9: a cycle with no handlers at all performs no write. -/
theorem claim_C9_witness :
    (handleUserMessage (⟨[]⟩ : BotBuilder) "idle" [] "hello").writes = [] := by
  exact (claim_C9 (⟨[]⟩ : BotBuilder) "idle" [] "hello" rfl).1.mpr ⟨rfl, rfl⟩

end Telemeister
